import Mathlib

/-!
Shallow embedding of the Execution Session Engine of this repository
(src/backend/core/jupyter_manager.py): the `execute_code` read loop of
`JupyterSession` with its post-idle drain phase, the entry checks, the
payload transfer strategy of `JupyterManager.create_session` /
`create_multi_session`, and the registry-storing tail of session creation.

The kernel's asynchronous message channel is modelled as an explicit trace:
each iteration of the read loop consumes one `Tick` (the elapsed time and
kernel liveness observed at the top of the iteration, plus the outcome of
the 0.5s-bounded read), and the post-idle drain phase consumes a list of
rounds, each round being the list of items found ready on the channel in
that round.
-/

/-- Error record stored in `outputs.error`: keys `ename`, `evalue`,
`traceback` of the Python dict. -/
structure ErrorRecord where
  ename : String
  evalue : String
  traceback : List String
deriving Repr, DecidableEq

/-- One entry of `outputs.data`: a dict with a `type` key
(`execute_result` or `display_data`) and a `data` mime bundle,
modelled as an association list from mime kind to payload. -/
structure DataItem where
  type : String
  data : List (String × String)
deriving Repr, DecidableEq

/-- The `outputs` dictionary built by `JupyterSession.execute_code`
(jupyter_manager.py lines 120-126). -/
structure ExecOutputs where
  stdout : List String
  stderr : List String
  data : List DataItem
  error : Option ErrorRecord
  execution_count : Option Nat
deriving Repr, DecidableEq

/-- The initial `outputs` value (all lists empty, `error` and
`execution_count` set to `None`). -/
def emptyOutputs : ExecOutputs :=
  { stdout := [], stderr := [], data := [], error := none, execution_count := none }

/-- A well-formed message on the kernel's output channel, after the
dict-shape checks of lines 190-203 succeeded: its `msg_type` together
with the `content` fields the loop consults. -/
inductive IOPubMsg where
  | stream (name text : String)
  | execute_result (count : Nat) (data : List (String × String))
  | display_data (data : List (String × String))
  | error (ename evalue : String) (traceback : List String)
  | status (execution_state : String)
  | other (msg_type : String)
deriving Repr, DecidableEq

/-- One item found ready on the channel during a drain round
(the `while msg_ready()` loop, lines 261-301): either a message, a
message failing the dict-shape checks of lines 266-271, or an exception
raised by the read itself (line 297, e.g. a signature failure). -/
inductive DrainItem where
  | msg (m : IOPubMsg)
  | malformed
  | readFailure (excText : String)
deriving Repr, DecidableEq

/-- The outcome of one bounded read in the main loop (lines 183-338):
a message, a message rejected by the dict-shape checks of lines 190-200,
the 0.5s read window expiring with nothing to read
(`asyncio.TimeoutError`, line 326), or any other exception from the read
(line 329, swallowed and skipped). -/
inductive ReadEvent where
  | msg (m : IOPubMsg)
  | malformed
  | readTimedOut
  | failure (excText : String)
deriving Repr, DecidableEq

/-- One iteration of the main read loop as observed from the environment:
the elapsed wall time (milliseconds since `start_time`) at the top of the
iteration, the kernel liveness `is_alive()` would report, the outcome of
the bounded read, and — consumed only when the read yields an idle status
message — the contents of the ready queue for each round of the drain
phase. -/
structure Tick where
  elapsedMs : Nat
  alive : Bool
  event : ReadEvent
  drainRounds : List (List DrainItem)
deriving Repr, DecidableEq

/-- Routing of one drain-phase item (lines 276-296): only a stdout
stream text, a `display_data` payload or an `execute_result` payload is
collected; an `execute_result` read here does not touch
`execution_count`. Everything else (stderr streams, errors, statuses,
malformed items, read failures) is dropped. Returns the updated outputs
and the updated `collected_this_round` counter. -/
def drainStep (out : ExecOutputs) (collected : Nat) : DrainItem → ExecOutputs × Nat
  | .msg (.stream name text) =>
      if name = "stdout" then
        ({ out with stdout := out.stdout ++ [text] }, collected + 1)
      else (out, collected)
  | .msg (.display_data d) =>
      ({ out with data := out.data ++ [⟨"display_data", d⟩] }, collected + 1)
  | .msg (.execute_result _ d) =>
      ({ out with data := out.data ++ [⟨"execute_result", d⟩] }, collected + 1)
  | _ => (out, collected)

/-- One drain round: the `while msg_ready()` loop of lines 261-301,
consuming every ready item in order. -/
def drainRound : List DrainItem → ExecOutputs → Nat → ExecOutputs × Nat
  | [], out, collected => (out, collected)
  | it :: rest, out, collected =>
      let s := drainStep out collected it
      drainRound rest s.1 s.2

/-- The drain loop of lines 251-324: `for wait_round in range(50)`, with
`total_collected` and `empty_rounds` counters; a round that collects
nothing increments `empty_rounds`, a collecting round resets it to 0; the
loop breaks once `empty_rounds >= 10` with something collected overall,
or once `empty_rounds >= 15`. Returns the outputs and the number of
rounds entered. An exhausted trace of rounds means the ready queue stays
empty, hence `rounds.headD []`. -/
def drainLoop : Nat → List (List DrainItem) → ExecOutputs → Nat → Nat → ExecOutputs × Nat
  | 0, _, out, _, _ => (out, 0)
  | fuel + 1, rounds, out, total, empty =>
      let s := drainRound (rounds.headD []) out 0
      let total' := total + s.2
      if s.2 = 0 then
        let empty' := empty + 1
        if 10 ≤ empty' ∧ 0 < total' then (s.1, 1)
        else if 15 ≤ empty' then (s.1, 1)
        else
          let r := drainLoop fuel rounds.tail s.1 total' empty'
          (r.1, r.2 + 1)
      else
        let r := drainLoop fuel rounds.tail s.1 total' 0
        (r.1, r.2 + 1)

/-- The drain phase as entered on an idle status (line 254):
50 rounds of fuel, both counters at 0. -/
def drainPhase (rounds : List (List DrainItem)) (out : ExecOutputs) : ExecOutputs × Nat :=
  drainLoop 50 rounds out 0 0

/-- Number of drain rounds actually entered for a given trace of rounds;
by `drainLoop_snd_out_indep` this does not depend on the outputs it is
computed at. -/
def drainRoundsUsed (rounds : List (List DrainItem)) : Nat :=
  (drainPhase rounds emptyOutputs).2

/-- The error dict synthesized on expiry of the single `timeout`
parameter (lines 156-163). -/
def extremeLimitErr (timeout : Nat) : ErrorRecord :=
  { ename := "ExtremeLimitError"
  , evalue := "执行时间超过极限保护时间（" ++ toString timeout ++ "秒），已强制中断"
  , traceback := ["提示：这通常表示代码陷入死循环，请检查代码逻辑"] }

/-- The error dict synthesized when the periodic liveness probe finds the
kernel dead mid-execution (lines 174-179). -/
def kernelCrashedErr : ErrorRecord :=
  { ename := "KernelCrashed"
  , evalue := "Kernel 在执行过程中崩溃"
  , traceback := ["可能原因：内存不足、图表 DPI 过高、数据量过大"] }

/-- Routing of one well-formed message in the main loop (lines 210-243):
stream texts go to the matching list, an `execute_result` sets
`execution_count` and appends to `data`, a `display_data` appends to
`data`, an `error` sets `error`; statuses and other message types leave
the outputs unchanged (the idle status is handled by the loop itself,
before routing). -/
def routeMsg (out : ExecOutputs) : IOPubMsg → ExecOutputs
  | .stream name text =>
      if name = "stdout" then { out with stdout := out.stdout ++ [text] }
      else if name = "stderr" then { out with stderr := out.stderr ++ [text] }
      else out
  | .execute_result count d =>
      { out with execution_count := some count
               , data := out.data ++ [⟨"execute_result", d⟩] }
  | .display_data d =>
      { out with data := out.data ++ [⟨"display_data", d⟩] }
  | .error ename evalue tb =>
      { out with error := some ⟨ename, evalue, tb⟩ }
  | .status _ => out
  | .other _ => out

/-- Result of the main read loop on a finite trace: `finished` when one
of the `break` paths (or the idle path) returned, `pending` with the
outputs accumulated so far when the trace was exhausted with the loop
still running. -/
inductive LoopResult where
  | finished (out : ExecOutputs)
  | pending (out : ExecOutputs)
deriving Repr, DecidableEq

/-- The main read loop of `execute_code` (lines 153-338). Per iteration,
in source order: if elapsed time exceeds `timeout` (seconds), synthesize
`ExtremeLimitError` and stop; if the wall clock is within the first half
second of a multiple of ten seconds, probe liveness and on a dead kernel
synthesize `KernelCrashed` and stop; otherwise read. An idle status
enters the drain phase and returns its outputs; every other event routes
(or is skipped) and the loop continues. -/
def execLoop (timeout : Nat) : List Tick → ExecOutputs → LoopResult
  | [], out => .pending out
  | t :: ts, out =>
      if timeout * 1000 < t.elapsedMs then
        .finished { out with error := some (extremeLimitErr timeout) }
      else if (t.elapsedMs / 1000) % 10 = 0 ∧ t.alive = false then
        .finished { out with error := some kernelCrashedErr }
      else
        match t.event with
        | .msg (.status st) =>
            if st = "idle" then .finished (drainPhase t.drainRounds out).1
            else execLoop timeout ts out
        | .msg m => execLoop timeout ts (routeMsg out m)
        | .malformed => execLoop timeout ts out
        | .readTimedOut => execLoop timeout ts out
        | .failure _ => execLoop timeout ts out

/-- The error dict returned when the pre-execution liveness check fails
(lines 129-136). -/
def kernelDeadErr : ErrorRecord :=
  { ename := "KernelError"
  , evalue := "Kernel 已崩溃或异常退出，请重新上传文件"
  , traceback := ["提示：如果图表 DPI 过高（如300），可能导致内存不足。建议降低 DPI 或简化数据。"] }

/-- The error dict returned when submitting the code to the kernel
raises (lines 140-148). -/
def submitFailedErr (excText : String) : ErrorRecord :=
  { ename := "ExecutionError"
  , evalue := "代码执行失败: " ++ excText
  , traceback := [excText] }

/-- The whole of `JupyterSession.execute_code` (lines 98-347): the entry
checks followed by the read loop. `clientStarted` is whether
`self.kernel_client` is set, `alive` the result of the pre-execution
`is_alive()` probe, `submitExc` the exception text if
`kernel_client.execute(code)` raised. The only raising path is the
missing client; every other failure is returned inside the outputs. -/
def execute_code (clientStarted alive : Bool) (submitExc : Option String)
    (timeout : Nat) (trace : List Tick) : Except String LoopResult :=
  if clientStarted = false then .error "Kernel 未启动"
  else if alive = false then
    .ok (.finished { emptyOutputs with error := some kernelDeadErr })
  else
    match submitExc with
    | some e => .ok (.finished { emptyOutputs with error := some (submitFailedErr e) })
    | none => .ok (execLoop timeout trace emptyOutputs)

/-- The payload size in megabytes as computed at jupyter_manager.py line
452 / 597: `len(data_json) / (1024 * 1024)`, a real-valued division. -/
def data_size_mb (payloadLen : Nat) : ℚ :=
  (payloadLen : ℚ) / (1024 * 1024)

/-- The two data-load paths of `create_session` (lines 454-483) and of
the per-table loop of `create_multi_session` (lines 599-635). -/
inductive PayloadTransfer where
  | tempFile
  | inlineEmbed
deriving Repr, DecidableEq

/-- What the payload-size branch produces: which load code is generated
and whether a temporary file is created in the process. -/
structure PayloadPlan where
  transfer : PayloadTransfer
  tempFileCreated : Bool
deriving Repr, DecidableEq

/-- The branch at line 455 / 600: payloads whose size in MB exceeds 10
are written to a temporary file and loaded from its path; all others are
embedded directly in the load code, with no temporary file. -/
def payloadPlan (payloadLen : Nat) : PayloadPlan :=
  if 10 < data_size_mb payloadLen then ⟨.tempFile, true⟩
  else ⟨.inlineEmbed, false⟩

/-- Whether the temporary file of the large-payload path still exists
once the load step has finished. The generated kernel-side script
(lines 465-475, likewise 610-623) runs `pd.read_json(path)` first and
only then `try: os.unlink(path) except: pass`; the manager process never
deletes the file itself, neither on the success path (lines 505-514) nor
on the failure path (lines 497-503). So the file is gone exactly when
the read succeeded and the unlink call itself succeeded; a failing read
aborts the script before the unlink line, and a failing unlink is
swallowed by the bare except. -/
def tempFileExistsAfterLoadStep (readRaises unlinkRaises : Bool) : Bool :=
  if readRaises then true
  else if unlinkRaises then true
  else false

/-- Outcome of a session-creation call, as seen by the caller. -/
inductive CreateOutcome where
  | raisedInitFailure (evalue : String)
  | created (session_id : String)
deriving Repr, DecidableEq

/-- The caller-visible effect of finishing a session creation: the
outcome, the registry contents afterwards (session ids, in insertion
order), and whether the freshly started kernel was shut down. -/
structure CreateEffect where
  outcome : CreateOutcome
  sessionsAfter : List String
  kernelShutdown : Bool
deriving Repr, DecidableEq

/-- The tail of `JupyterManager.create_session` after the init code has
run (lines 497-514): on an error in the init result, shut the kernel
down and raise; otherwise store the session in the registry and return
the id. -/
def create_session_finish (sessions : List String) (sid : String)
    (initResult : ExecOutputs) : CreateEffect :=
  match initResult.error with
  | some err => ⟨.raisedInitFailure err.evalue, sessions, true⟩
  | none => ⟨.created sid, sessions ++ [sid], false⟩

/-- The per-table load loop of `create_multi_session` (lines 590-646):
tables are loaded in order and the first load result carrying an error
shuts the kernel down and raises; if every load is clean the session is
stored (line 649). -/
def multi_load_loop (sessions : List String) (sid : String) :
    List ExecOutputs → CreateEffect
  | [] => ⟨.created sid, sessions ++ [sid], false⟩
  | r :: rest =>
      match r.error with
      | some err => ⟨.raisedInitFailure err.evalue, sessions, true⟩
      | none => multi_load_loop sessions sid rest

/-- The tail of `JupyterManager.create_multi_session` after the kernel
started (lines 576-652): run the import init code, abort on its error
(lines 578-582), then load the tables one by one. -/
def create_multi_session_finish (sessions : List String) (sid : String)
    (initResult : ExecOutputs) (loadResults : List ExecOutputs) : CreateEffect :=
  match initResult.error with
  | some err => ⟨.raisedInitFailure err.evalue, sessions, true⟩
  | none => multi_load_loop sessions sid loadResults

/-- Texts a main-loop read event contributes to `outputs.stdout`:
exactly the text of a stream message whose name is stdout. -/
def eventStdoutTexts : ReadEvent → List String
  | .msg (.stream name text) => if name = "stdout" then [text] else []
  | _ => []

/-- Texts a drain-phase item contributes to `outputs.stdout`. -/
def drainItemStdoutTexts : DrainItem → List String
  | .msg (.stream name text) => if name = "stdout" then [text] else []
  | _ => []

/-- Data items a drain-phase item contributes to `outputs.data`. -/
def drainItemDataItems : DrainItem → List DataItem
  | .msg (.display_data d) => [⟨"display_data", d⟩]
  | .msg (.execute_result _ d) => [⟨"execute_result", d⟩]
  | _ => []

/-- How much one drain item advances `collected_this_round`. -/
def drainItemCollectCount (it : DrainItem) : Nat :=
  (drainItemStdoutTexts it).length + (drainItemDataItems it).length

/-- Stdout texts of one whole drain round, in arrival order. -/
def roundStdoutTexts (items : List DrainItem) : List String :=
  (items.map drainItemStdoutTexts).flatten

/-- Data items of one whole drain round, in arrival order. -/
def roundDataItems (items : List DrainItem) : List DataItem :=
  (items.map drainItemDataItems).flatten

/-- Whether a read event is the idle status message. -/
def isIdleEvent : ReadEvent → Bool
  | .msg (.status st) => st = "idle"
  | _ => false

/-- Effect of one non-idle read event on the outputs: a message routes
through `routeMsg`, everything else (malformed, read window expiry, read
failure) is skipped. -/
def eventRoute (out : ExecOutputs) : ReadEvent → ExecOutputs
  | .msg m => routeMsg out m
  | _ => out

theorem drainStep_spec (out : ExecOutputs) (c : Nat) (it : DrainItem) :
    drainStep out c it =
      ({ out with stdout := out.stdout ++ drainItemStdoutTexts it,
                  data := out.data ++ drainItemDataItems it },
       c + drainItemCollectCount it) := by
  cases it with
  | msg m =>
      cases m <;>
        simp [drainStep, drainItemStdoutTexts, drainItemDataItems, drainItemCollectCount]
      case stream name text =>
        split <;> simp
  | malformed =>
      simp [drainStep, drainItemStdoutTexts, drainItemDataItems, drainItemCollectCount]
  | readFailure s =>
      simp [drainStep, drainItemStdoutTexts, drainItemDataItems, drainItemCollectCount]

theorem drainRound_spec (items : List DrainItem) :
    ∀ (out : ExecOutputs) (c : Nat),
      drainRound items out c =
        ({ out with stdout := out.stdout ++ roundStdoutTexts items,
                    data := out.data ++ roundDataItems items },
         c + (items.map drainItemCollectCount).sum) := by
  induction items with
  | nil =>
      intro out c
      simp [drainRound, roundStdoutTexts, roundDataItems]
  | cons it rest ih =>
      intro out c
      simp only [drainRound, drainStep_spec, ih, roundStdoutTexts, roundDataItems,
        List.map_cons, List.flatten_cons, List.sum_cons]
      simp [List.append_assoc, Nat.add_assoc]

theorem drainLoop_spec (fuel : Nat) :
    ∀ (rounds : List (List DrainItem)) (out : ExecOutputs) (total empty : Nat),
      ∃ used, used ≤ fuel ∧
        drainLoop fuel rounds out total empty =
          ({ out with
              stdout := out.stdout ++ ((rounds.take used).map roundStdoutTexts).flatten,
              data := out.data ++ ((rounds.take used).map roundDataItems).flatten },
           used) := by
  induction fuel with
  | zero =>
      intro rounds out total empty
      exact ⟨0, Nat.le_refl 0, by simp [drainLoop]⟩
  | succ fuel ih =>
      intro rounds out total empty
      simp only [drainLoop, drainRound_spec, Nat.zero_add]
      split_ifs with h0 hbr1 hbr2
      · refine ⟨1, by omega, ?_⟩
        cases rounds with
        | nil => simp [roundStdoutTexts, roundDataItems]
        | cons r rs => simp
      · refine ⟨1, by omega, ?_⟩
        cases rounds with
        | nil => simp [roundStdoutTexts, roundDataItems]
        | cons r rs => simp
      · obtain ⟨u, hu, heq⟩ := ih rounds.tail
          { out with
              stdout := out.stdout ++ roundStdoutTexts (rounds.headD []),
              data := out.data ++ roundDataItems (rounds.headD []) }
          (total + ((rounds.headD []).map drainItemCollectCount).sum) (empty + 1)
        rw [heq]
        refine ⟨u + 1, by omega, ?_⟩
        cases rounds with
        | nil => simp [roundStdoutTexts, roundDataItems]
        | cons r rs => simp [List.append_assoc]
      · obtain ⟨u, hu, heq⟩ := ih rounds.tail
          { out with
              stdout := out.stdout ++ roundStdoutTexts (rounds.headD []),
              data := out.data ++ roundDataItems (rounds.headD []) }
          (total + ((rounds.headD []).map drainItemCollectCount).sum) 0
        rw [heq]
        refine ⟨u + 1, by omega, ?_⟩
        cases rounds with
        | nil => simp [roundStdoutTexts, roundDataItems]
        | cons r rs => simp [List.append_assoc]

theorem drainLoop_snd_out_indep (fuel : Nat) :
    ∀ (rounds : List (List DrainItem)) (total empty : Nat) (out₁ out₂ : ExecOutputs),
      (drainLoop fuel rounds out₁ total empty).2 =
        (drainLoop fuel rounds out₂ total empty).2 := by
  induction fuel with
  | zero => intro rounds total empty out₁ out₂; simp [drainLoop]
  | succ fuel ih =>
      intro rounds total empty out₁ out₂
      simp only [drainLoop, drainRound_spec, Nat.zero_add]
      split_ifs with h0 hbr1 hbr2
      · rfl
      · rfl
      · exact congrArg (fun n => n + 1) (ih _ _ _ _ _)
      · exact congrArg (fun n => n + 1) (ih _ _ _ _ _)

theorem drainPhase_spec (rounds : List (List DrainItem)) (out : ExecOutputs) :
    drainPhase rounds out =
      ({ out with
          stdout := out.stdout
            ++ ((rounds.take (drainRoundsUsed rounds)).map roundStdoutTexts).flatten,
          data := out.data
            ++ ((rounds.take (drainRoundsUsed rounds)).map roundDataItems).flatten },
       drainRoundsUsed rounds) := by
  obtain ⟨u, hu, heq⟩ := drainLoop_spec 50 rounds out 0 0
  have hsnd : (drainPhase rounds out).2 = drainRoundsUsed rounds := by
    unfold drainRoundsUsed drainPhase
    exact drainLoop_snd_out_indep 50 rounds 0 0 out emptyOutputs
  have hueq : u = drainRoundsUsed rounds := by
    rw [show drainPhase rounds out = drainLoop 50 rounds out 0 0 from rfl, heq] at hsnd
    simpa using hsnd
  rw [show drainPhase rounds out = drainLoop 50 rounds out 0 0 from rfl, heq, hueq]

theorem drainRoundsUsed_le (rounds : List (List DrainItem)) :
    drainRoundsUsed rounds ≤ 50 := by
  obtain ⟨u, hu, heq⟩ := drainLoop_spec 50 rounds emptyOutputs 0 0
  rw [drainRoundsUsed, drainPhase, heq]
  simpa using hu

theorem drainPhase_nil (out : ExecOutputs) : drainPhase [] out = (out, 15) := rfl

theorem isIdleEvent_eq_true (e : ReadEvent) :
    isIdleEvent e = true ↔ e = .msg (.status "idle") := by
  cases e with
  | msg m => cases m <;> simp [isIdleEvent]
  | malformed => simp [isIdleEvent]
  | readTimedOut => simp [isIdleEvent]
  | failure s => simp [isIdleEvent]

theorem execLoop_cons_backstop (timeout : Nat) (t : Tick) (ts : List Tick)
    (out : ExecOutputs) (h : timeout * 1000 < t.elapsedMs) :
    execLoop timeout (t :: ts) out =
      .finished { out with error := some (extremeLimitErr timeout) } := by
  simp only [execLoop]
  rw [if_pos h]

theorem execLoop_cons_crash (timeout : Nat) (t : Tick) (ts : List Tick)
    (out : ExecOutputs) (h1 : ¬ timeout * 1000 < t.elapsedMs)
    (h2 : (t.elapsedMs / 1000) % 10 = 0 ∧ t.alive = false) :
    execLoop timeout (t :: ts) out =
      .finished { out with error := some kernelCrashedErr } := by
  simp only [execLoop]
  rw [if_neg h1, if_pos h2]

theorem execLoop_cons_idle (timeout : Nat) (t : Tick) (ts : List Tick)
    (out : ExecOutputs) (h1 : ¬ timeout * 1000 < t.elapsedMs)
    (h2 : ¬ ((t.elapsedMs / 1000) % 10 = 0 ∧ t.alive = false))
    (hev : t.event = .msg (.status "idle")) :
    execLoop timeout (t :: ts) out = .finished (drainPhase t.drainRounds out).1 := by
  simp only [execLoop]
  rw [if_neg h1, if_neg h2, hev]
  simp

theorem execLoop_cons_step (timeout : Nat) (t : Tick) (ts : List Tick)
    (out : ExecOutputs) (h1 : ¬ timeout * 1000 < t.elapsedMs)
    (h2 : ¬ ((t.elapsedMs / 1000) % 10 = 0 ∧ t.alive = false))
    (h3 : isIdleEvent t.event = false) :
    execLoop timeout (t :: ts) out = execLoop timeout ts (eventRoute out t.event) := by
  simp only [execLoop]
  rw [if_neg h1, if_neg h2]
  cases hev : t.event with
  | msg m =>
      cases m with
      | stream name text => simp [eventRoute]
      | execute_result count d => simp [eventRoute]
      | display_data d => simp [eventRoute]
      | error en ev tb => simp [eventRoute]
      | status st =>
          rw [hev] at h3
          simp only [isIdleEvent] at h3
          simp [eventRoute, routeMsg, of_decide_eq_false h3]
      | other mt => simp [eventRoute]
  | malformed => simp [eventRoute]
  | readTimedOut => simp [eventRoute]
  | failure s => simp [eventRoute]

theorem eventRoute_stdout (out : ExecOutputs) (e : ReadEvent) :
    (eventRoute out e).stdout = out.stdout ++ eventStdoutTexts e := by
  cases e with
  | msg m =>
      cases m with
      | stream name text =>
          simp only [eventRoute, routeMsg, eventStdoutTexts]
          split_ifs <;> simp
      | execute_result count d => simp [eventRoute, routeMsg, eventStdoutTexts]
      | display_data d => simp [eventRoute, routeMsg, eventStdoutTexts]
      | error en ev tb => simp [eventRoute, routeMsg, eventStdoutTexts]
      | status st => simp [eventRoute, routeMsg, eventStdoutTexts]
      | other mt => simp [eventRoute, routeMsg, eventStdoutTexts]
  | malformed => simp [eventRoute, eventStdoutTexts]
  | readTimedOut => simp [eventRoute, eventStdoutTexts]
  | failure s => simp [eventRoute, eventStdoutTexts]

theorem execLoop_append (timeout : Nat) (pre : List Tick) :
    ∀ (rest : List Tick) (out out' : ExecOutputs),
      execLoop timeout pre out = .pending out' →
      execLoop timeout (pre ++ rest) out = execLoop timeout rest out' := by
  induction pre with
  | nil =>
      intro rest out out' h
      simp only [execLoop] at h
      injection h with h'
      subst h'
      rfl
  | cons t ts ih =>
      intro rest out out' h
      by_cases h1 : timeout * 1000 < t.elapsedMs
      · rw [execLoop_cons_backstop timeout t ts out h1] at h
        cases h
      · by_cases h2 : (t.elapsedMs / 1000) % 10 = 0 ∧ t.alive = false
        · rw [execLoop_cons_crash timeout t ts out h1 h2] at h
          cases h
        · by_cases h3 : isIdleEvent t.event = true
          · rw [execLoop_cons_idle timeout t ts out h1 h2
              ((isIdleEvent_eq_true t.event).mp h3)] at h
            cases h
          · have h3' : isIdleEvent t.event = false := by
              simpa using h3
            rw [execLoop_cons_step timeout t ts out h1 h2 h3'] at h
            rw [List.cons_append,
              execLoop_cons_step timeout t (ts ++ rest) out h1 h2 h3']
            exact ih rest (eventRoute out t.event) out' h

/-- Claim C1 is false as stated: calling execute with caller-specified
timeout 2s on code that produces no messages (an infinite loop; every
read times out) returns at elapsed 2.1s with error kind
ExtremeLimitError, not TimeoutError. The loop has no separate soft
TimeoutError: the single timeout check (lines 156-163) synthesizes
ExtremeLimitError on expiry of the caller's own timeout parameter. -/
theorem C1_counterexample :
    execute_code true true none 2
      [{ elapsedMs := 2100, alive := true, event := .readTimedOut, drainRounds := [] }] =
      .ok (.finished { emptyOutputs with error := some (extremeLimitErr 2) }) ∧
    (extremeLimitErr 2).ename = "ExtremeLimitError" ∧
    ¬ (extremeLimitErr 2).ename = "TimeoutError" :=
  ⟨rfl, rfl, by decide⟩

/-- C1 (amended): for every call to execute with a caller-specified
timeout, when elapsed time exceeds that timeout the loop synthesizes an
ExtremeLimitError into the result's error and stops at that iteration,
keeping everything collected so far; the caller's timeout is itself the
single backstop — there is no separate soft TimeoutError. -/
theorem C1_caller_timeout_is_extreme_limit (timeout : Nat) (pre : List Tick)
    (out' : ExecOutputs) (t : Tick) (rest : List Tick)
    (hpre : execLoop timeout pre emptyOutputs = .pending out')
    (ht : timeout * 1000 < t.elapsedMs) :
    execute_code true true none timeout (pre ++ t :: rest) =
      .ok (.finished { out' with error := some (extremeLimitErr timeout) }) ∧
    (extremeLimitErr timeout).ename = "ExtremeLimitError" := by
  constructor
  · have hred : execute_code true true none timeout (pre ++ t :: rest) =
        .ok (execLoop timeout (pre ++ t :: rest) emptyOutputs) := rfl
    rw [hred, execLoop_append timeout pre (t :: rest) emptyOutputs out' hpre,
      execLoop_cons_backstop timeout t rest out' ht]
  · rfl

theorem C1_witness :
    execLoop 2 [{ elapsedMs := 500, alive := true,
                  event := .msg (.stream "stdout" "x"), drainRounds := [] }]
        emptyOutputs = .pending { emptyOutputs with stdout := ["x"] } ∧
    2 * 1000 < 2100 ∧
    execute_code true true none 2
      [{ elapsedMs := 500, alive := true,
         event := .msg (.stream "stdout" "x"), drainRounds := [] },
       { elapsedMs := 2100, alive := true, event := .readTimedOut, drainRounds := [] }] =
      .ok (.finished { emptyOutputs with stdout := ["x"]
                                        , error := some (extremeLimitErr 2) }) := by
  refine ⟨rfl, by norm_num, ?_⟩
  have h := C1_caller_timeout_is_extreme_limit 2
      [{ elapsedMs := 500, alive := true,
         event := .msg (.stream "stdout" "x"), drainRounds := [] }]
      { emptyOutputs with stdout := ["x"] }
      { elapsedMs := 2100, alive := true, event := .readTimedOut, drainRounds := [] }
      [] rfl (by norm_num)
  simpa using h.1

/-- Claim C5: once the idle status is observed, execute returns within
the bounded drain phase: the drain consumes at most 50 rounds, and with
zero additional messages it returns the accumulated outputs unchanged
after exactly 15 (empty) rounds — the loop cannot hang after idle. -/
theorem C5_drain_phase_bounded (timeout : Nat) (pre : List Tick)
    (out out' : ExecOutputs) (t : Tick)
    (hpre : execLoop timeout pre out = .pending out')
    (hev : t.event = .msg (.status "idle"))
    (h1 : ¬ timeout * 1000 < t.elapsedMs) (h2 : t.alive = true) :
    execLoop timeout (pre ++ [t]) out = .finished (drainPhase t.drainRounds out').1 ∧
    (drainPhase t.drainRounds out').2 ≤ 50 ∧
    (t.drainRounds = [] →
      execLoop timeout (pre ++ [t]) out = .finished out' ∧
      (drainPhase t.drainRounds out').2 = 15) := by
  have hmain : execLoop timeout (pre ++ [t]) out =
      .finished (drainPhase t.drainRounds out').1 := by
    rw [execLoop_append timeout pre [t] out out' hpre,
      execLoop_cons_idle timeout t [] out' h1 (by simp [h2]) hev]
  have hsnd : (drainPhase t.drainRounds out').2 = drainRoundsUsed t.drainRounds := by
    rw [drainPhase_spec]
  refine ⟨hmain, ?_, ?_⟩
  · rw [hsnd]
    exact drainRoundsUsed_le _
  · intro hnil
    constructor
    · rw [hmain, hnil, drainPhase_nil]
    · rw [hnil, drainPhase_nil]

theorem C5_witness :
    execLoop 30 [{ elapsedMs := 100, alive := true,
                   event := .msg (.stream "stdout" "hi"), drainRounds := [] },
                 { elapsedMs := 200, alive := true,
                   event := .msg (.status "idle"), drainRounds := [] }] emptyOutputs =
      .finished { emptyOutputs with stdout := ["hi"] } ∧
    (drainPhase ([] : List (List DrainItem))
        { emptyOutputs with stdout := ["hi"] }).2 = 15 := by
  obtain ⟨h1, h2, h3⟩ := C5_drain_phase_bounded 30
      [{ elapsedMs := 100, alive := true,
         event := .msg (.stream "stdout" "hi"), drainRounds := [] }]
      emptyOutputs { emptyOutputs with stdout := ["hi"] }
      { elapsedMs := 200, alive := true,
        event := .msg (.status "idle"), drainRounds := [] }
      rfl rfl (by norm_num) rfl
  obtain ⟨h4, h5⟩ := h3 rfl
  exact ⟨by simpa using h4, by simpa using h5⟩

/-- Claim C8: every execution-time failure — backstop timeout expiry,
kernel death caught by the periodic liveness probe, or a computed error
message — ends with the failure recorded inside the result's error
field, and the stdout, stderr and data collected before the failure are
still present in the returned result (only the error field changes). -/
theorem C8_failures_returned_in_result (timeout : Nat) (pre : List Tick)
    (out out' : ExecOutputs)
    (hpre : execLoop timeout pre out = .pending out') :
    (∀ (t : Tick) (rest : List Tick), timeout * 1000 < t.elapsedMs →
        execLoop timeout (pre ++ t :: rest) out =
          .finished { out' with error := some (extremeLimitErr timeout) }) ∧
    (∀ (t : Tick) (rest : List Tick), ¬ timeout * 1000 < t.elapsedMs →
        (t.elapsedMs / 1000) % 10 = 0 → t.alive = false →
        execLoop timeout (pre ++ t :: rest) out =
          .finished { out' with error := some kernelCrashedErr }) ∧
    (∀ (en ev : String) (tb : List String) (t u : Tick),
        t.event = .msg (.error en ev tb) →
        ¬ timeout * 1000 < t.elapsedMs → t.alive = true →
        u.event = .msg (.status "idle") →
        ¬ timeout * 1000 < u.elapsedMs → u.alive = true → u.drainRounds = [] →
        execLoop timeout (pre ++ [t, u]) out =
          .finished { out' with error := some ⟨en, ev, tb⟩ }) := by
  refine ⟨?_, ?_, ?_⟩
  · intro t rest ht
    rw [execLoop_append timeout pre (t :: rest) out out' hpre,
      execLoop_cons_backstop timeout t rest out' ht]
  · intro t rest h1 h2 h3
    rw [execLoop_append timeout pre (t :: rest) out out' hpre,
      execLoop_cons_crash timeout t rest out' h1 ⟨h2, h3⟩]
  · intro en ev tb t u hevt h1t hat hevu h1u hau hdr
    rw [execLoop_append timeout pre [t, u] out out' hpre,
      execLoop_cons_step timeout t [u] out' h1t (by simp [hat]) (by rw [hevt]; rfl)]
    have hre : eventRoute out' t.event = { out' with error := some ⟨en, ev, tb⟩ } := by
      rw [hevt]; rfl
    rw [hre, execLoop_cons_idle timeout u [] _ h1u (by simp [hau]) hevu, hdr,
      drainPhase_nil]

theorem C8_witness :
    execLoop 600 [{ elapsedMs := 100, alive := true,
                    event := .msg (.stream "stdout" "x"), drainRounds := [] },
                  { elapsedMs := 600001, alive := true,
                    event := .readTimedOut, drainRounds := [] }] emptyOutputs =
      .finished { emptyOutputs with stdout := ["x"]
                                   , error := some (extremeLimitErr 600) } ∧
    execLoop 600 [{ elapsedMs := 100, alive := true,
                    event := .msg (.stream "stdout" "x"), drainRounds := [] },
                  { elapsedMs := 10000, alive := false,
                    event := .readTimedOut, drainRounds := [] }] emptyOutputs =
      .finished { emptyOutputs with stdout := ["x"]
                                   , error := some kernelCrashedErr } ∧
    execLoop 600 [{ elapsedMs := 100, alive := true,
                    event := .msg (.stream "stdout" "x"), drainRounds := [] },
                  { elapsedMs := 200, alive := true,
                    event := .msg (.error "ZeroDivisionError" "division by zero" ["tb"]),
                    drainRounds := [] },
                  { elapsedMs := 300, alive := true,
                    event := .msg (.status "idle"), drainRounds := [] }] emptyOutputs =
      .finished { emptyOutputs with stdout := ["x"]
                                   , error := some ⟨"ZeroDivisionError", "division by zero", ["tb"]⟩ } := by
  obtain ⟨p1, p2, p3⟩ := C8_failures_returned_in_result 600
      [{ elapsedMs := 100, alive := true,
         event := .msg (.stream "stdout" "x"), drainRounds := [] }]
      emptyOutputs { emptyOutputs with stdout := ["x"] } rfl
  refine ⟨?_, ?_, ?_⟩
  · simpa using p1 ⟨600001, true, .readTimedOut, []⟩ [] (by norm_num)
  · simpa using p2 ⟨10000, false, .readTimedOut, []⟩ [] (by norm_num) (by norm_num) rfl
  · simpa using p3 "ZeroDivisionError" "division by zero" ["tb"]
      ⟨200, true, .msg (.error "ZeroDivisionError" "division by zero" ["tb"]), []⟩
      ⟨300, true, .msg (.status "idle"), []⟩
      rfl (by norm_num) rfl rfl (by norm_num) rfl rfl

/-- Claim C6: for any execution whose trace reaches the idle status with
no earlier stop, the returned stdout is exactly the texts of the stdout
stream messages read in the main loop followed by those read in the
drain phase, in arrival order — nothing else is ever appended to it. -/
theorem C6_stdout_order_and_exactness (timeout : Nat) (pre : List Tick) (t : Tick)
    (out : ExecOutputs)
    (hpre : ∀ u ∈ pre, u.elapsedMs ≤ timeout * 1000 ∧ u.alive = true ∧
      isIdleEvent u.event = false)
    (ht : t.elapsedMs ≤ timeout * 1000) (ha : t.alive = true)
    (hev : t.event = .msg (.status "idle")) :
    ∃ r, execLoop timeout (pre ++ [t]) out = .finished r ∧
      r.stdout = out.stdout
        ++ (pre.map (fun u => eventStdoutTexts u.event)).flatten
        ++ ((t.drainRounds.take (drainRoundsUsed t.drainRounds)).map
              roundStdoutTexts).flatten := by
  induction pre generalizing out with
  | nil =>
      refine ⟨(drainPhase t.drainRounds out).1, ?_, ?_⟩
      · exact execLoop_cons_idle timeout t [] out (by omega) (by simp [ha]) hev
      · rw [drainPhase_spec]
        simp
  | cons u us ih =>
      obtain ⟨hu1, hu2, hu3⟩ := hpre u (List.mem_cons_self u us)
      obtain ⟨r, hr, hs⟩ := ih (eventRoute out u.event)
        (fun v hv => hpre v (List.mem_cons_of_mem u hv))
      refine ⟨r, ?_, ?_⟩
      · rw [List.cons_append,
          execLoop_cons_step timeout u (us ++ [t]) out (by omega) (by simp [hu2]) hu3]
        exact hr
      · rw [hs, eventRoute_stdout]
        simp [List.append_assoc]

theorem C6_witness :
    ∃ r, execLoop 600
        [⟨100, true, .msg (.stream "stdout" "a"), []⟩,
         ⟨200, true, .msg (.stream "stderr" "w"), []⟩,
         ⟨300, true, .msg (.status "idle"), [[.msg (.stream "stdout" "b")]]⟩]
        emptyOutputs = .finished r ∧
      r.stdout = ["a", "b"] := by
  obtain ⟨r, hr, hs⟩ := C6_stdout_order_and_exactness 600
      [⟨100, true, .msg (.stream "stdout" "a"), []⟩,
       ⟨200, true, .msg (.stream "stderr" "w"), []⟩]
      ⟨300, true, .msg (.status "idle"), [[.msg (.stream "stdout" "b")]]⟩
      emptyOutputs (by decide) (by norm_num) rfl rfl
  refine ⟨r, by simpa using hr, ?_⟩
  rw [hs]
  rfl

/-- Claim C7: malformed or unverifiable messages are skipped and never
fatal: a noise event (a message failing the dict-shape checks, or a read
that raised — e.g. on a failed signature check) anywhere in the
main-loop trace, and a malformed item or failing read anywhere in a
drain round, leave the returned result exactly as if the noise had not
occurred; collection continues with the subsequent messages. -/
theorem C7_noise_never_fatal (timeout : Nat) :
    (∀ (pre post : List Tick) (out : ExecOutputs) (t : Tick),
        (t.event = .malformed ∨ ∃ s, t.event = .failure s) →
        t.elapsedMs ≤ timeout * 1000 → t.alive = true →
        execLoop timeout (pre ++ t :: post) out = execLoop timeout (pre ++ post) out) ∧
    (∀ (as bs : List DrainItem) (out : ExecOutputs) (c : Nat) (it : DrainItem),
        (it = .malformed ∨ ∃ s, it = .readFailure s) →
        drainRound (as ++ it :: bs) out c = drainRound (as ++ bs) out c) := by
  constructor
  · intro pre post out t hnoise htime halive
    induction pre generalizing out with
    | nil =>
        have h1 : ¬ timeout * 1000 < t.elapsedMs := by omega
        have h2 : ¬ ((t.elapsedMs / 1000) % 10 = 0 ∧ t.alive = false) := by
          simp [halive]
        have h3 : isIdleEvent t.event = false := by
          rcases hnoise with h | ⟨s, h⟩ <;> rw [h] <;> rfl
        rw [List.nil_append, List.nil_append,
          execLoop_cons_step timeout t post out h1 h2 h3]
        rcases hnoise with h | ⟨s, h⟩ <;> rw [h] <;> rfl
    | cons u us ih =>
        by_cases hu1 : timeout * 1000 < u.elapsedMs
        · rw [List.cons_append, List.cons_append,
            execLoop_cons_backstop timeout u (us ++ t :: post) out hu1,
            execLoop_cons_backstop timeout u (us ++ post) out hu1]
        · by_cases hu2 : (u.elapsedMs / 1000) % 10 = 0 ∧ u.alive = false
          · rw [List.cons_append, List.cons_append,
              execLoop_cons_crash timeout u (us ++ t :: post) out hu1 hu2,
              execLoop_cons_crash timeout u (us ++ post) out hu1 hu2]
          · by_cases hu3 : isIdleEvent u.event = true
            · have hevu := (isIdleEvent_eq_true u.event).mp hu3
              rw [List.cons_append, List.cons_append,
                execLoop_cons_idle timeout u (us ++ t :: post) out hu1 hu2 hevu,
                execLoop_cons_idle timeout u (us ++ post) out hu1 hu2 hevu]
            · have hu3' : isIdleEvent u.event = false := by simpa using hu3
              rw [List.cons_append, List.cons_append,
                execLoop_cons_step timeout u (us ++ t :: post) out hu1 hu2 hu3',
                execLoop_cons_step timeout u (us ++ post) out hu1 hu2 hu3']
              exact ih (eventRoute out u.event)
  · intro as bs out c it hnoise
    induction as generalizing out c with
    | nil =>
        have hstep : drainStep out c it = (out, c) := by
          rcases hnoise with h | ⟨s, h⟩ <;> rw [h] <;> rfl
        simp only [List.nil_append, drainRound, hstep]
    | cons a as' ih =>
        simp only [List.cons_append, drainRound]
        exact ih _ _

theorem C7_witness :
    execLoop 600 [⟨100, true, .msg (.stream "stdout" "a"), []⟩,
                  ⟨150, true, .malformed, []⟩,
                  ⟨250, true, .failure "Invalid Signature", []⟩] emptyOutputs =
      execLoop 600 [⟨100, true, .msg (.stream "stdout" "a"), []⟩] emptyOutputs ∧
    drainRound [.malformed, .msg (.display_data [("image/png", "AAA")]),
                .readFailure "Invalid Signature"] emptyOutputs 0 =
      drainRound [.msg (.display_data [("image/png", "AAA")])] emptyOutputs 0 := by
  obtain ⟨hmain, hdrain⟩ := C7_noise_never_fatal 600
  constructor
  · have h1 := hmain [⟨100, true, .msg (.stream "stdout" "a"), []⟩]
      [⟨250, true, .failure "Invalid Signature", []⟩] emptyOutputs
      ⟨150, true, .malformed, []⟩ (Or.inl rfl) (by norm_num) rfl
    have h2 := hmain [⟨100, true, .msg (.stream "stdout" "a"), []⟩] [] emptyOutputs
      ⟨250, true, .failure "Invalid Signature", []⟩ (Or.inr ⟨_, rfl⟩) (by norm_num) rfl
    exact h1.trans h2
  · have hd1 := hdrain [] [.msg (.display_data [("image/png", "AAA")]),
        .readFailure "Invalid Signature"] emptyOutputs 0 .malformed (Or.inl rfl)
    have hd2 := hdrain [.msg (.display_data [("image/png", "AAA")])] [] emptyOutputs 0
      (.readFailure "Invalid Signature") (Or.inr ⟨_, rfl⟩)
    exact hd1.trans hd2

theorem multi_load_loop_all_ok (sessions : List String) (sid : String) :
    ∀ (lrs : List ExecOutputs), (∀ r ∈ lrs, r.error = none) →
      multi_load_loop sessions sid lrs = ⟨.created sid, sessions ++ [sid], false⟩ := by
  intro lrs
  induction lrs with
  | nil => intro _; rfl
  | cons r rest ih =>
      intro h
      have hr : r.error = none := h r (List.mem_cons_self r rest)
      simp only [multi_load_loop, hr]
      exact ih (fun v hv => h v (List.mem_cons_of_mem r hv))

theorem multi_load_loop_first_fail (sessions : List String) (sid : String) :
    ∀ (lrs : List ExecOutputs), (∃ r ∈ lrs, r.error ≠ none) →
      ∃ ev, multi_load_loop sessions sid lrs =
        ⟨.raisedInitFailure ev, sessions, true⟩ := by
  intro lrs
  induction lrs with
  | nil =>
      rintro ⟨r, hr, _⟩
      simp at hr
  | cons r rest ih =>
      rintro ⟨v, hv, hne⟩
      cases hre : r.error with
      | some e => exact ⟨e.evalue, by simp only [multi_load_loop, hre]⟩
      | none =>
          rcases List.mem_cons.mp hv with h | h
          · subst h
            exact absurd hre hne
          · obtain ⟨ev, hev2⟩ := ih ⟨v, h, hne⟩
            refine ⟨ev, ?_⟩
            simp only [multi_load_loop, hre]
            exact hev2

/-- Claim C3: a session is stored in the registry exactly when its
initialization (and, for a multi-table session, every table load)
reports no error; any error instead shuts the half-built kernel down,
raises an initialization failure to the caller, and leaves the registry
unchanged. -/
theorem C3_init_error_aborts_creation (sessions : List String) (sid : String)
    (initResult : ExecOutputs) (loadResults : List ExecOutputs) :
    (initResult.error = none →
      create_session_finish sessions sid initResult =
        ⟨.created sid, sessions ++ [sid], false⟩) ∧
    (∀ e, initResult.error = some e →
      create_session_finish sessions sid initResult =
        ⟨.raisedInitFailure e.evalue, sessions, true⟩) ∧
    (initResult.error = none → (∀ r ∈ loadResults, r.error = none) →
      create_multi_session_finish sessions sid initResult loadResults =
        ⟨.created sid, sessions ++ [sid], false⟩) ∧
    ((initResult.error ≠ none ∨ ∃ r ∈ loadResults, r.error ≠ none) →
      ∃ ev, create_multi_session_finish sessions sid initResult loadResults =
        ⟨.raisedInitFailure ev, sessions, true⟩) := by
  refine ⟨?_, ?_, ?_, ?_⟩
  · intro h
    simp only [create_session_finish, h]
  · intro e h
    simp only [create_session_finish, h]
  · intro h1 h2
    simp only [create_multi_session_finish, h1]
    exact multi_load_loop_all_ok sessions sid loadResults h2
  · rintro (h | h)
    · cases hre : initResult.error with
      | none => exact absurd hre h
      | some e => exact ⟨e.evalue, by simp only [create_multi_session_finish, hre]⟩
    · cases hre : initResult.error with
      | none =>
          obtain ⟨ev, hev2⟩ := multi_load_loop_first_fail sessions sid loadResults h
          refine ⟨ev, ?_⟩
          simp only [create_multi_session_finish, hre]
          exact hev2
      | some e => exact ⟨e.evalue, by simp only [create_multi_session_finish, hre]⟩

theorem C3_witness :
    create_session_finish [] "s1" emptyOutputs =
      ⟨.created "s1", ["s1"], false⟩ ∧
    create_session_finish ["s0"] "s1"
        { emptyOutputs with error := some ⟨"NameError", "boom", []⟩ } =
      ⟨.raisedInitFailure "boom", ["s0"], true⟩ ∧
    create_multi_session_finish [] "s2" emptyOutputs [emptyOutputs] =
      ⟨.created "s2", ["s2"], false⟩ ∧
    (∃ ev, create_multi_session_finish [] "s2" emptyOutputs
        [emptyOutputs, { emptyOutputs with error := some ⟨"ValueError", "bad", []⟩ }] =
      ⟨.raisedInitFailure ev, [], true⟩) := by
  refine ⟨?_, ?_, ?_, ?_⟩
  · exact (C3_init_error_aborts_creation [] "s1" emptyOutputs []).1 rfl
  · exact (C3_init_error_aborts_creation ["s0"] "s1"
      { emptyOutputs with error := some ⟨"NameError", "boom", []⟩ } []).2.1
      ⟨"NameError", "boom", []⟩ rfl
  · exact (C3_init_error_aborts_creation [] "s2" emptyOutputs [emptyOutputs]).2.2.1
      rfl (by decide)
  · exact (C3_init_error_aborts_creation [] "s2" emptyOutputs
      [emptyOutputs, { emptyOutputs with error := some ⟨"ValueError", "bad", []⟩ }]).2.2.2
      (Or.inr ⟨{ emptyOutputs with error := some ⟨"ValueError", "bad", []⟩ },
        by decide, by decide⟩)

/-- Claim C4 counterexample: the entry checks of execute_code consult
only whether the kernel client is started and whether the kernel is
alive — exactly the observable state of a session already serving an
in-flight execution (the stored session has no status field at all) —
so such a session is admitted again and runs a full second execution to
completion; no branch rejects or queues it. -/
theorem C4_counterexample :
    execute_code true true none 600
      [⟨100, true, .msg (.status "idle"), []⟩] = .ok (.finished emptyOutputs) := rfl

/-- C4 (amended): execute_code raises only when the kernel client was
never started; a dead kernel or failed submission is reported inside the
returned result, and every other session — including one whose only
difference is an in-flight execution, which the stored session state
cannot represent — is admitted to the read loop. There is no
status-based rejection and no queueing of concurrent calls. -/
theorem C4_no_busy_state_rejection (clientStarted alive : Bool)
    (submitExc : Option String) (timeout : Nat) (trace : List Tick) :
    ((∃ msg, execute_code clientStarted alive submitExc timeout trace =
        .error msg) ↔ clientStarted = false) ∧
    (clientStarted = true → alive = true → submitExc = none →
      execute_code clientStarted alive submitExc timeout trace =
        .ok (execLoop timeout trace emptyOutputs)) := by
  constructor
  · constructor
    · rintro ⟨msg, h⟩
      cases clientStarted with
      | false => rfl
      | true =>
          cases alive with
          | false => simp [execute_code] at h
          | true => cases submitExc <;> simp [execute_code] at h
    · intro h
      subst h
      exact ⟨"Kernel 未启动", rfl⟩
  · intro h1 h2 h3
    subst h1
    subst h2
    subst h3
    rfl

theorem C4_witness :
    execute_code true true none 600 [] = .ok (.pending emptyOutputs) ∧
    (∃ msg, execute_code false true none 600 [] = .error msg) := by
  constructor
  · exact (C4_no_busy_state_rejection true true none 600 []).2 rfl rfl rfl
  · exact (C4_no_busy_state_rejection false true none 600 []).1.mpr rfl

theorem data_size_mb_gt_iff (n : Nat) : 10 < data_size_mb n ↔ 10485760 < n := by
  unfold data_size_mb
  rw [lt_div_iff₀ (by norm_num : (0:ℚ) < 1024 * 1024)]
  rw [show (10:ℚ) * (1024 * 1024) = ((10485760 : Nat) : ℚ) by norm_num]
  exact Nat.cast_lt

/-- Claim C2 is false as stated: when the kernel-side load of the
temporary file fails (the read raises), the generated script aborts
before its unlink line and the manager process deletes nothing on either
path, so the temporary file still exists after create_session (or the
per-table load of create_multi_session) raises. -/
theorem C2_counterexample :
    tempFileExistsAfterLoadStep true false = true := rfl

/-- C2 (amended): a payload above the size threshold is written to a
temporary file, and that file is deleted only on the success path of the
kernel-side load script: after a successful read and unlink the file is
gone, but when the load step fails the file survives the call. -/
theorem C2_temp_file_deleted_only_on_success (payloadLen : Nat) (unlinkRaises : Bool)
    (hbig : 10 * 1024 * 1024 < payloadLen) :
    (payloadPlan payloadLen).tempFileCreated = true ∧
    tempFileExistsAfterLoadStep false false = false ∧
    tempFileExistsAfterLoadStep true unlinkRaises = true := by
  refine ⟨?_, rfl, ?_⟩
  · unfold payloadPlan
    rw [if_pos ((data_size_mb_gt_iff payloadLen).mpr (by omega))]
  · cases unlinkRaises <;> rfl

theorem C2_witness :
    10 * 1024 * 1024 < 10485761 ∧
    (payloadPlan 10485761).tempFileCreated = true ∧
    tempFileExistsAfterLoadStep false false = false ∧
    tempFileExistsAfterLoadStep true true = true := by
  have h := C2_temp_file_deleted_only_on_success 10485761 true (by norm_num)
  exact ⟨by norm_num, h.1, h.2.1, h.2.2⟩

/-- Claim C9: a payload whose length does not exceed the 10 MB threshold
(10485760 bytes) is embedded inline in the initialization code text and
no temporary file is created; a payload strictly above the threshold
goes through the temporary-file path instead. -/
theorem C9_payload_transfer_threshold (payloadLen : Nat) :
    (payloadLen ≤ 10 * 1024 * 1024 →
      payloadPlan payloadLen = ⟨.inlineEmbed, false⟩) ∧
    (10 * 1024 * 1024 < payloadLen →
      payloadPlan payloadLen = ⟨.tempFile, true⟩) := by
  constructor
  · intro h
    have hnot : ¬ 10 < data_size_mb payloadLen := by
      rw [data_size_mb_gt_iff]
      omega
    unfold payloadPlan
    rw [if_neg hnot]
  · intro h
    unfold payloadPlan
    rw [if_pos ((data_size_mb_gt_iff payloadLen).mpr (by omega))]

theorem C9_witness :
    payloadPlan 10485760 = ⟨.inlineEmbed, false⟩ ∧
    payloadPlan 10485761 = ⟨.tempFile, true⟩ :=
  ⟨(C9_payload_transfer_threshold 10485760).1 (by norm_num),
   (C9_payload_transfer_threshold 10485761).2 (by norm_num)⟩

/-- Claim C10: drain-phase routing is narrower than the main loop's: the
drain appends only stdout stream texts and display_data / execute_result
data items of the rounds it enters, in order, while stderr, error and
execution_count are left untouched — post-idle stderr streams and error
messages are dropped, and a drained execute_result appends to data
without setting execution_count. -/
theorem C10_drain_routing_narrow (rounds : List (List DrainItem)) (out : ExecOutputs) :
    (drainPhase rounds out).1.stderr = out.stderr ∧
    (drainPhase rounds out).1.error = out.error ∧
    (drainPhase rounds out).1.execution_count = out.execution_count ∧
    (drainPhase rounds out).1.stdout = out.stdout
      ++ ((rounds.take (drainRoundsUsed rounds)).map roundStdoutTexts).flatten ∧
    (drainPhase rounds out).1.data = out.data
      ++ ((rounds.take (drainRoundsUsed rounds)).map roundDataItems).flatten ∧
    (∀ tx : String, roundStdoutTexts [DrainItem.msg (.stream "stderr" tx)] = []) ∧
    (∀ (en ev : String) (tb : List String),
      roundDataItems [DrainItem.msg (.error en ev tb)] = [] ∧
      roundStdoutTexts [DrainItem.msg (.error en ev tb)] = []) := by
  rw [drainPhase_spec]
  exact ⟨rfl, rfl, rfl, rfl, rfl, fun tx => rfl, fun en ev tb => ⟨rfl, rfl⟩⟩
